import Mathlib

/-!
Shallow embedding of the JWT-authentication demo API (NestJS + Auth0):
the authentication guard, the global HTTP exception filter, the JWT
strategy configuration, the startup environment check, and the fixed
message handlers, together with theorems settling the specification
claims about them.
-/

namespace AuthApi

/-- An HTTP exception as handled by the exception filter: a numeric
status code and a human-readable message.  Embeds the part of
NestJS's `HttpException` that `HttpExceptionFilter.catch` reads
(`exception.getStatus()` and `exception.message`). -/
structure HttpExceptionL where
  status : Nat
  message : String
deriving Repr, DecidableEq

/-- Modelled from the spec: the framework's `UnauthorizedException(msg)`
is an `HttpException` whose declared status is 401
("raises an `AuthenticationRequired` error (HTTP-equivalent: 401)"). -/
def unauthorizedException (msg : String) : HttpExceptionL :=
  { status := 401, message := msg }

/-- `JwtAuthGuard.handleRequest` from `src/auth/jwt-auth.guard.ts`:
if `err` is neither `undefined` nor `null` it is rethrown unchanged
(embedded as `Except.error (Sum.inl e)`); otherwise, if no user value
is present, an `UnauthorizedException` with the fixed message
`"Requires authentication"` is thrown (`Except.error (Sum.inr _)`);
otherwise the validated user value is returned.  The `_info`,
`_context` and `_status` parameters are unused, as in the source. -/
def handleRequest {E U I C S : Type} (err : Option E) (user : Option U)
    (_info : I) (_context : Option C) (_status : Option S) :
    Except (E ⊕ HttpExceptionL) U :=
  match err with
  | some e => .error (Sum.inl e)
  | none =>
    match user with
    | some u => .ok u
    | none => .error (Sum.inr (unauthorizedException "Requires authentication"))

/-- The body shape sent by the exception filter
(`ErrorMessage` from `src/models/messages.ts`). -/
structure ErrorMessage where
  message : String
deriving Repr, DecidableEq

/-- The response written by the exception filter:
`response.status(status).json(body)`. -/
structure HttpResponse where
  status : Nat
  body : ErrorMessage
deriving Repr, DecidableEq

/-- The `errorMessages` record from `src/http-exception.filter.ts`:
canonical text for `HttpStatus.NOT_FOUND` (404) and
`HttpStatus.INTERNAL_SERVER_ERROR` (500); no entry for other statuses. -/
def errorMessages (status : Nat) : Option String :=
  if status = 404 then some "Not Found"
  else if status = 500 then some "Internal server error"
  else none

/-- `HttpExceptionFilter.catch` from `src/http-exception.filter.ts`:
the response status is `exception.getStatus()` and the body message is
`errorMessages[status] ?? exception.message`. -/
def catchException (exception : HttpExceptionL) : HttpResponse :=
  { status := exception.status
  , body := { message := (errorMessages exception.status).getD exception.message } }

/-- The decoded JWT payload (`JwtPayload` in `src/auth/jwt.strategy.ts`):
standard claims `sub`, `iss`, `aud`, `exp`, `iat`, each optional.
The audience claim is a single value or a list of values. -/
structure JwtPayload where
  sub : Option String
  iss : Option String
  aud : Option (String ⊕ List String)
  exp : Option Nat
  iat : Option Nat
deriving Repr, DecidableEq

/-- `JwtStrategy.validate` from `src/auth/jwt.strategy.ts`:
returns the decoded payload as-is. -/
def JwtStrategy.validate (payload : JwtPayload) : JwtPayload :=
  payload

/-- JavaScript `s.endsWith('/')`: true exactly when the last character
of `s` is `'/'`. -/
def endsWithSlash (s : String) : Bool :=
  s.data.getLast? = some '/'

/-- The JWKS URI computed in the `JwtStrategy` constructor:
`issuerBaseUrl + '.well-known/jwks.json'` when the base URL already
ends with `'/'`, else `issuerBaseUrl + '/.well-known/jwks.json'`. -/
def jwksUri (issuerBaseUrl : String) : String :=
  if endsWithSlash issuerBaseUrl then issuerBaseUrl ++ ".well-known/jwks.json"
  else issuerBaseUrl ++ "/.well-known/jwks.json"

/-- The expected issuer passed to the verifier in the `JwtStrategy`
constructor: the configured base URL itself when it ends with `'/'`,
else the base URL with `'/'` appended. -/
def expectedIssuerOf (issuerBaseUrl : String) : String :=
  if endsWithSlash issuerBaseUrl then issuerBaseUrl else issuerBaseUrl ++ "/"

/-- The issuer base URL with one trailing `'/'` removed when present.
Used to state that the JWKS URI and the expected issuer are obtained by
joining with exactly one `'/'`. -/
def stripTrailingSlash (s : String) : String :=
  if endsWithSlash s then ⟨s.data.dropLast⟩ else s

/-- The verification failure reasons of the Token Verifier
(spec section 4.1 / error taxonomy of section 7). -/
inductive VerificationFailure where
  | MalformedToken
  | KeyResolutionFailed
  | SignatureInvalid
  | TokenExpired
  | AudienceMismatch
  | IssuerMismatch
deriving Repr, DecidableEq

/-- The options the `JwtStrategy` constructor passes to the external
verification library: accepted algorithm list, whether expiration
checking is skipped, expected audience and expected issuer. -/
structure VerifyConfig where
  allowedAlgs : List String
  ignoreExpiration : Bool
  expectedAudience : String
  expectedIssuer : String
deriving Repr, DecidableEq

/-- The configuration built by the `JwtStrategy` constructor from
`AUTH0_ISSUER_BASE_URL` and `AUTH0_AUDIENCE`:
`algorithms: ['RS256']`, `ignoreExpiration: false`, the configured
audience, and the issuer normalized to end with `'/'`. -/
def jwtStrategyConfig (issuerBaseUrl audience : String) : VerifyConfig :=
  { allowedAlgs := ["RS256"]
  , ignoreExpiration := false
  , expectedAudience := audience
  , expectedIssuer := expectedIssuerOf issuerBaseUrl }

/-- A bearer token as seen by the verifier: whether it parses into the
three dot-separated segments, the declared signing algorithm and key id
from its header, the decoded claim set, whether the key id resolved to
key material, and whether the signature verifies under the resolved
key.  The cryptographic and parsing primitives themselves are external
collaborators, so they appear as fields of the token value. -/
structure Token where
  wellFormed : Bool
  alg : String
  kid : String
  payload : JwtPayload
  keyResolved : Bool
  sigValid : Bool
deriving Repr, DecidableEq

/-- Whether the audience claim contains the expected audience: equality
for a single value, membership for a list, false when absent. -/
def audContains (aud : Option (String ⊕ List String)) (expected : String) : Bool :=
  match aud with
  | none => false
  | some (Sum.inl s) => s = expected
  | some (Sum.inr l) => l.contains expected

/-- Whether the expiration claim is present and not in the future
(acceptance requires `now < exp` strictly). -/
def expiredAt (exp : Option Nat) (now : Nat) : Bool :=
  match exp with
  | some e => e ≤ now
  | none => false

/-- Modelled from the spec: the Token Verifier contract of section 4.1
(the verification itself lives in the external `passport-jwt` /
`jsonwebtoken` libraries, configured by the `JwtStrategy` constructor).
Rejects `MalformedToken` when the token does not parse; then
`KeyResolutionFailed` when the key id does not resolve; then
`SignatureInvalid` when the declared algorithm is not in the accepted
list or the signature does not verify; then `TokenExpired` when
expiration checking is enabled and the expiration claim is present and
not strictly in the future; then `AudienceMismatch` when the audience
claim does not contain the expected audience; then `IssuerMismatch`
when the issuer claim does not exactly equal the expected issuer.
On all checks passing, returns the decoded claim set unmodified. -/
def verify (cfg : VerifyConfig) (now : Nat) (tok : Token) :
    Except VerificationFailure JwtPayload :=
  if !tok.wellFormed then .error .MalformedToken
  else if !tok.keyResolved then .error .KeyResolutionFailed
  else if !(cfg.allowedAlgs.contains tok.alg) then .error .SignatureInvalid
  else if !tok.sigValid then .error .SignatureInvalid
  else if !cfg.ignoreExpiration && expiredAt tok.payload.exp now then .error .TokenExpired
  else if !(audContains tok.payload.aud cfg.expectedAudience) then .error .AudienceMismatch
  else if tok.payload.iss ≠ some cfg.expectedIssuer then .error .IssuerMismatch
  else .ok tok.payload

/-- The list of required environment variables in `checkEnvironment`
(`src/main.ts`): `PORT`, `AUTH0_ISSUER_BASE_URL`, `AUTH0_AUDIENCE`,
`CLIENT_ORIGIN_URL`. -/
def requiredEnvVars : List String :=
  ["PORT", "AUTH0_ISSUER_BASE_URL", "AUTH0_AUDIENCE", "CLIENT_ORIGIN_URL"]

/-- The loop body of `checkEnvironment`: for each variable in order,
reads it from the configuration; when the value is `undefined` or the
empty string, throws `Error('Undefined environment variable: ' + envVar)`. -/
def checkVars (cfg : String → Option String) : List String → Except String Unit
  | [] => .ok ()
  | v :: rest =>
    match cfg v with
    | none => .error ("Undefined environment variable: " ++ v)
    | some s =>
      if s = "" then .error ("Undefined environment variable: " ++ v)
      else checkVars cfg rest

/-- `checkEnvironment` from `src/main.ts`: checks the four required
variables in order, throwing on the first missing or empty one. -/
def checkEnvironment (cfg : String → Option String) : Except String Unit :=
  checkVars cfg requiredEnvVars

/-- The observable outcome of `bootstrap` in `src/main.ts`: either the
startup check threw before the listen call, or the server is listening
on a port that is a configured string or the numeric fallback `6060`. -/
inductive BootstrapResult where
  | failed (msg : String)
  | listening (port : String ⊕ Nat)
deriving Repr, DecidableEq

/-- `bootstrap` from `src/main.ts`, restricted to the control flow the
claims are about: `checkEnvironment` runs first, and only when it
returns normally does the server listen, on
`configService.get('PORT') ?? 6060`. -/
def bootstrap (cfg : String → Option String) : BootstrapResult :=
  match checkEnvironment cfg with
  | .error m => .failed m
  | .ok _ =>
    .listening (match cfg "PORT" with
      | some p => Sum.inl p
      | none => Sum.inr 6060)

/-- The response payload of the message endpoints
(`Message` from `src/models/messages.ts`). -/
structure Message where
  text : String
deriving Repr, DecidableEq

/-- `MessagesService.getPublicMessage`. -/
def MessagesService.getPublicMessage : Message :=
  { text := "This is a public message." }

/-- `MessagesService.getProtectedMessage`. -/
def MessagesService.getProtectedMessage : Message :=
  { text := "This is a protected message." }

/-- `MessagesService.getAdminMessage`. -/
def MessagesService.getAdminMessage : Message :=
  { text := "This is an admin message." }

/-- `MessagesController.getPublic`: returns the service's public
message; the handler takes no request data. -/
def MessagesController.getPublic : Message :=
  MessagesService.getPublicMessage

/-- `MessagesController.getProtected`: guarded by `JwtAuthGuard`;
returns the service's protected message. -/
def MessagesController.getProtected : Message :=
  MessagesService.getProtectedMessage

/-- `MessagesController.getAdmin`: guarded by `JwtAuthGuard`; returns
the service's admin message. -/
def MessagesController.getAdmin : Message :=
  MessagesService.getAdminMessage

/-! ### Helper lemmas -/

/-- A string that ends with `'/'` equals its last-character-dropped
prefix with `"/"` appended. -/
theorem append_slash_of_endsWithSlash (s : String) (h : endsWithSlash s = true) :
    (⟨s.data.dropLast⟩ : String) ++ "/" = s := by
  obtain ⟨l⟩ := s
  apply String.ext
  simp only [endsWithSlash] at h
  have h' : l.getLast? = some '/' := by simpa using h
  simpa [String.data_append] using List.dropLast_append_getLast? _ h'

/-- Appending `"/"` to any string yields a string ending with `'/'`. -/
theorem endsWithSlash_append_slash (s : String) : endsWithSlash (s ++ "/") = true := by
  have hd : ("/" : String).data = ['/'] := rfl
  simp [endsWithSlash, String.data_append, hd, List.getLast?_concat]

/-- `checkVars` succeeds exactly when every listed variable is present
and non-empty. -/
theorem checkVars_ok_iff (cfg : String → Option String) (vs : List String) :
    checkVars cfg vs = .ok () ↔ ∀ v ∈ vs, ∃ s, cfg v = some s ∧ s ≠ "" := by
  induction vs with
  | nil => simp [checkVars]
  | cons v rest ih =>
    constructor
    · intro h w hw
      rcases List.mem_cons.mp hw with rfl | hw'
      · cases hv : cfg w with
        | none => simp [checkVars, hv] at h
        | some s =>
          by_cases hs : s = ""
          · simp [checkVars, hv, hs] at h
          · exact ⟨s, rfl, hs⟩
      · cases hv : cfg v with
        | none => simp [checkVars, hv] at h
        | some s =>
          by_cases hs : s = ""
          · simp [checkVars, hv, hs] at h
          · have h' : checkVars cfg rest = .ok () := by
              simpa [checkVars, hv, hs] using h
            exact (ih.mp h') w hw'
    · intro h
      obtain ⟨s, hv, hs⟩ := h v (List.mem_cons_self v rest)
      have h' : ∀ w ∈ rest, ∃ s, cfg w = some s ∧ s ≠ "" :=
        fun w hw => h w (List.mem_cons_of_mem v hw)
      simp [checkVars, hv, hs, ih.mpr h']

/-- When some listed variable is missing or empty, `checkVars` throws
an error naming a missing or empty variable of the list. -/
theorem checkVars_error_of_bad (cfg : String → Option String) (vs : List String)
    (hbad : ∃ v ∈ vs, cfg v = none ∨ cfg v = some "") :
    ∃ v ∈ vs, (cfg v = none ∨ cfg v = some "") ∧
      checkVars cfg vs = .error ("Undefined environment variable: " ++ v) := by
  induction vs with
  | nil =>
    obtain ⟨v, hv, _⟩ := hbad
    simp at hv
  | cons v rest ih =>
    cases hv : cfg v with
    | none =>
      exact ⟨v, List.mem_cons_self v rest, Or.inl hv, by simp [checkVars, hv]⟩
    | some s =>
      by_cases hs : s = ""
      · subst hs
        exact ⟨v, List.mem_cons_self v rest, Or.inr hv, by simp [checkVars, hv]⟩
      · obtain ⟨w, hw, hbw⟩ := hbad
        rcases List.mem_cons.mp hw with rfl | hw'
        · rcases hbw with h1 | h1 <;> rw [hv] at h1 <;> simp_all
        · obtain ⟨u, hu, hbu, herr⟩ := ih ⟨w, hw', hbw⟩
          exact ⟨u, List.mem_cons_of_mem v hu, hbu, by simp [checkVars, hv, hs, herr]⟩

/-! ### Claim theorems -/

/-- C1: when the guard's `handleRequest` is called with no verifier
error and no user value, it raises `UnauthorizedException` with HTTP
status 401 and the fixed message `"Requires authentication"`,
regardless of the Passport `info` value describing the specific
verification failure. -/
theorem guard_raises_fixed_401_on_auth_failure {E U I C S : Type}
    (info : I) (ctx : Option C) (st : Option S) :
    handleRequest (E := E) (U := U) none none info ctx st
        = .error (Sum.inr (unauthorizedException "Requires authentication"))
      ∧ (unauthorizedException "Requires authentication").status = 401
      ∧ (unauthorizedException "Requires authentication").message
          = "Requires authentication" :=
  ⟨rfl, rfl, rfl⟩

/-- C2: the exception filter's response carries the exception's own
status; the body message is the canonical `"Not Found"` for 404 and
`"Internal server error"` for 500 regardless of the original text, and
the exception's own message verbatim for every other status. -/
theorem filter_canonicalizes_404_500_passes_others (exception : HttpExceptionL) :
    (catchException exception).status = exception.status
      ∧ (exception.status = 404 →
          (catchException exception).body.message = "Not Found")
      ∧ (exception.status = 500 →
          (catchException exception).body.message = "Internal server error")
      ∧ (exception.status ≠ 404 → exception.status ≠ 500 →
          (catchException exception).body.message = exception.message) := by
  refine ⟨rfl, ?_, ?_, ?_⟩
  · intro h
    simp [catchException, errorMessages, h]
  · intro h
    simp [catchException, errorMessages, h]
  · intro h1 h2
    simp [catchException, errorMessages, h1, h2]

/-- Witness for C2 at concrete exceptions: a 404 with arbitrary text
becomes `"Not Found"`, a 500 with arbitrary text becomes
`"Internal server error"`, and the 401 guard message passes through. -/
theorem filter_canonicalizes_404_500_passes_others_witness :
    (catchException ⟨404, "no such route detail"⟩).body.message = "Not Found"
      ∧ (catchException ⟨500, "stack trace detail"⟩).body.message
          = "Internal server error"
      ∧ (catchException ⟨401, "Requires authentication"⟩).body.message
          = "Requires authentication" :=
  ⟨(filter_canonicalizes_404_500_passes_others ⟨404, "no such route detail"⟩).2.1 rfl,
   (filter_canonicalizes_404_500_passes_others ⟨500, "stack trace detail"⟩).2.2.1 rfl,
   (filter_canonicalizes_404_500_passes_others ⟨401, "Requires authentication"⟩).2.2.2
     (by decide) (by decide)⟩

/-- C3: when the verifier passes a non-null error to `handleRequest`,
the guard rethrows exactly that error value unchanged — even when a
user value is simultaneously present — and never replaces it with the
generic 401 `UnauthorizedException`. -/
theorem guard_propagates_verifier_error {E U I C S : Type}
    (e : E) (user : Option U) (info : I) (ctx : Option C) (st : Option S) :
    handleRequest (some e) user info ctx st = .error (Sum.inl e)
      ∧ ∀ exc : HttpExceptionL,
          handleRequest (some e) user info ctx st ≠ .error (Sum.inr exc) := by
  refine ⟨rfl, fun exc h => ?_⟩
  simp [handleRequest] at h

/-- C8: each handler returns its fixed payload: the public handler
always returns the public message, and the two guarded handlers return
their distinct fixed payloads unchanged from the service. -/
theorem handlers_return_fixed_payloads :
    MessagesController.getPublic = { text := "This is a public message." }
      ∧ MessagesController.getProtected = { text := "This is a protected message." }
      ∧ MessagesController.getAdmin = { text := "This is an admin message." }
      ∧ MessagesController.getProtected ≠ MessagesController.getAdmin
      ∧ MessagesController.getPublic = MessagesService.getPublicMessage
      ∧ MessagesController.getProtected = MessagesService.getProtectedMessage
      ∧ MessagesController.getAdmin = MessagesService.getAdminMessage :=
  ⟨rfl, rfl, rfl, by decide, rfl, rfl, rfl⟩

/-- C9: the strategy's `validate` is the identity on the decoded
payload, and the guard's `handleRequest` returns the verified user
value unchanged when no error occurred. -/
theorem claims_attached_unmodified {E U I C S : Type}
    (payload : JwtPayload) (u : U) (info : I) (ctx : Option C) (st : Option S) :
    JwtStrategy.validate payload = payload
      ∧ handleRequest (E := E) none (some u) info ctx st = .ok u :=
  ⟨rfl, rfl⟩

/-- C4: under the strategy's configuration (`algorithms: ['RS256']`),
any token whose header declares a different signing algorithm is
rejected by verification, regardless of the rest of its content. -/
theorem verifier_rejects_non_rs256 (issuerBaseUrl audience : String) (now : Nat)
    (tok : Token) (h : tok.alg ≠ "RS256") :
    (verify (jwtStrategyConfig issuerBaseUrl audience) now tok).isOk = false := by
  have hc : (["RS256"] : List String).contains tok.alg = false := by
    simp [h]
  simp only [verify, jwtStrategyConfig]
  split_ifs <;> simp_all [Except.isOk, Except.toBool]

/-- A token claiming the symmetric algorithm HS256, otherwise entirely
valid: well-formed, resolvable key, valid signature, unexpired,
matching audience and issuer. -/
def hs256Token : Token :=
  { wellFormed := true
  , alg := "HS256"
  , kid := "key-1"
  , payload :=
    { sub := some "auth0|user"
    , iss := some "https://tenant.example.com/"
    , aud := some (Sum.inl "https://api.example.com")
    , exp := some 2000
    , iat := some 1000 }
  , keyResolved := true
  , sigValid := true }

/-- Witness for C4: the otherwise-valid HS256 token is rejected. -/
theorem verifier_rejects_non_rs256_witness :
    hs256Token.alg ≠ "RS256"
      ∧ (verify (jwtStrategyConfig "https://tenant.example.com/"
          "https://api.example.com") 1500 hs256Token).isOk = false :=
  ⟨by decide,
   verifier_rejects_non_rs256 "https://tenant.example.com/"
     "https://api.example.com" 1500 hs256Token (by decide)⟩

/-- C5: under the strategy's configuration, a token whose expiration
claim is at or before the current time is rejected; a token accepted by
verification has its expiration claim, when present, strictly in the
future; and expiration checking is never skipped
(`ignoreExpiration: false`). -/
theorem verifier_enforces_expiration (issuerBaseUrl audience : String) (now : Nat)
    (tok : Token) :
    (∀ e, tok.payload.exp = some e → e ≤ now →
        (verify (jwtStrategyConfig issuerBaseUrl audience) now tok).isOk = false)
      ∧ (∀ p, verify (jwtStrategyConfig issuerBaseUrl audience) now tok = .ok p →
          ∀ e, tok.payload.exp = some e → now < e)
      ∧ (jwtStrategyConfig issuerBaseUrl audience).ignoreExpiration = false := by
  refine ⟨?_, ?_, rfl⟩
  · intro e he hle
    have hexp : expiredAt tok.payload.exp now = true := by
      simp [expiredAt, he, hle]
    simp only [verify, jwtStrategyConfig]
    split_ifs <;> simp_all [Except.isOk, Except.toBool]
  · intro p hp e he
    simp only [verify, jwtStrategyConfig] at hp
    split_ifs at hp
    simp_all [expiredAt, Nat.not_le]

/-- An expired but otherwise valid RS256 token. -/
def expiredToken : Token :=
  { hs256Token with alg := "RS256", payload := { hs256Token.payload with exp := some 50 } }

/-- Witness for C5: the expired token is rejected when the current time
is at its expiration timestamp or later. -/
theorem verifier_enforces_expiration_witness :
    expiredToken.payload.exp = some 50 ∧ 50 ≤ 100
      ∧ (verify (jwtStrategyConfig "https://tenant.example.com/"
          "https://api.example.com") 100 expiredToken).isOk = false :=
  ⟨rfl, by decide,
   (verifier_enforces_expiration "https://tenant.example.com/"
     "https://api.example.com" 100 expiredToken).1 50 rfl (by decide)⟩

/-- C6: the JWKS endpoint equals the configured issuer base URL joined
with `.well-known/jwks.json` by exactly one `'/'` (whether or not the
configured value already ends with `'/'`), and the expected issuer the
verifier compares against is the configured value normalized to end
with a trailing `'/'`. -/
theorem jwks_join_and_issuer_normalization (issuerBaseUrl audience : String) :
    jwksUri issuerBaseUrl
        = stripTrailingSlash issuerBaseUrl ++ "/" ++ ".well-known/jwks.json"
      ∧ (jwtStrategyConfig issuerBaseUrl audience).expectedIssuer
          = stripTrailingSlash issuerBaseUrl ++ "/"
      ∧ endsWithSlash (jwtStrategyConfig issuerBaseUrl audience).expectedIssuer
          = true := by
  have key : stripTrailingSlash issuerBaseUrl ++ "/" = issuerBaseUrl
      ∨ (endsWithSlash issuerBaseUrl = false
          ∧ stripTrailingSlash issuerBaseUrl = issuerBaseUrl) := by
    cases hs : endsWithSlash issuerBaseUrl with
    | true =>
      left
      simp only [stripTrailingSlash, hs, if_pos]
      exact append_slash_of_endsWithSlash issuerBaseUrl hs
    | false =>
      right
      exact ⟨rfl, by simp [stripTrailingSlash, hs]⟩
  rcases key with hk | ⟨hs, hstrip⟩
  · have hs : endsWithSlash issuerBaseUrl = true := by
      rw [← hk]
      exact endsWithSlash_append_slash (stripTrailingSlash issuerBaseUrl)
    refine ⟨?_, ?_, ?_⟩
    · simp [jwksUri, hs, hk]
    · simp [jwtStrategyConfig, expectedIssuerOf, hs, hk]
    · simp [jwtStrategyConfig, expectedIssuerOf, hs]
  · refine ⟨?_, ?_, ?_⟩
    · rw [jwksUri, hstrip, String.append_assoc]
      simp [hs]
    · simp [jwtStrategyConfig, expectedIssuerOf, hs, hstrip]
    · simp [jwtStrategyConfig, expectedIssuerOf, hs, endsWithSlash_append_slash]

/-- C7: when any of the four required configuration values is undefined
or empty, `checkEnvironment` throws an error naming a missing variable
and `bootstrap` fails before listening; when all four are supplied
non-empty, the check returns normally. -/
theorem startup_fails_fast_on_missing_config (cfg : String → Option String) :
    ((∃ v ∈ requiredEnvVars, cfg v = none ∨ cfg v = some "") →
        ∃ v ∈ requiredEnvVars, (cfg v = none ∨ cfg v = some "")
          ∧ checkEnvironment cfg = .error ("Undefined environment variable: " ++ v)
          ∧ bootstrap cfg = .failed ("Undefined environment variable: " ++ v))
      ∧ ((∀ v ∈ requiredEnvVars, ∃ s, cfg v = some s ∧ s ≠ "") →
          checkEnvironment cfg = .ok ()) := by
  constructor
  · intro hbad
    obtain ⟨v, hv, hbv, herr⟩ := checkVars_error_of_bad cfg requiredEnvVars hbad
    exact ⟨v, hv, hbv, herr, by simp [bootstrap, checkEnvironment] at herr ⊢; simp [herr]⟩
  · intro h
    exact (checkVars_ok_iff cfg requiredEnvVars).mpr h

/-- A configuration supplying all four required variables non-empty. -/
def goodCfg : String → Option String := fun v =>
  if v = "PORT" then some "6060"
  else if v = "AUTH0_ISSUER_BASE_URL" then some "https://tenant.example.auth0.com"
  else if v = "AUTH0_AUDIENCE" then some "https://api.example.com"
  else if v = "CLIENT_ORIGIN_URL" then some "http://localhost:4040"
  else none

/-- The good configuration with `PORT` removed. -/
def missingPortCfg : String → Option String := fun v =>
  if v = "PORT" then none else goodCfg v

/-- Witness for C7: with `PORT` missing, startup fails naming a missing
variable and the server never listens; with all four values supplied,
the check returns normally. -/
theorem startup_fails_fast_on_missing_config_witness :
    (∃ v ∈ requiredEnvVars, missingPortCfg v = none ∨ missingPortCfg v = some "")
      ∧ (∃ v ∈ requiredEnvVars, (missingPortCfg v = none ∨ missingPortCfg v = some "")
          ∧ checkEnvironment missingPortCfg
              = .error ("Undefined environment variable: " ++ v)
          ∧ bootstrap missingPortCfg
              = .failed ("Undefined environment variable: " ++ v))
      ∧ checkEnvironment goodCfg = .ok () := by
  have hbad : ∃ v ∈ requiredEnvVars, missingPortCfg v = none ∨ missingPortCfg v = some "" :=
    ⟨"PORT", by simp [requiredEnvVars], Or.inl rfl⟩
  refine ⟨hbad, (startup_fails_fast_on_missing_config missingPortCfg).1 hbad,
    (startup_fails_fast_on_missing_config goodCfg).2 ?_⟩
  intro v hv
  fin_cases hv
  · exact ⟨"6060", rfl, by decide⟩
  · exact ⟨"https://tenant.example.auth0.com", rfl, by decide⟩
  · exact ⟨"https://api.example.com", rfl, by decide⟩
  · exact ⟨"http://localhost:4040", rfl, by decide⟩

/-- C10: when the startup environment check returns normally, the
`?? 6060` fallback in the listen expression is unreachable: the server
listens on exactly the configured `PORT` string. -/
theorem port_fallback_unreachable (cfg : String → Option String)
    (h : checkEnvironment cfg = .ok ()) :
    ∃ p, cfg "PORT" = some p ∧ p ≠ "" ∧ bootstrap cfg = .listening (Sum.inl p) := by
  have hall := (checkVars_ok_iff cfg requiredEnvVars).mp h
  obtain ⟨p, hp, hpne⟩ := hall "PORT" (by simp [requiredEnvVars])
  exact ⟨p, hp, hpne, by simp [bootstrap, h, hp]⟩

/-- Witness for C10: with the good configuration, the check passes and
the server listens on the configured port string. -/
theorem port_fallback_unreachable_witness :
    checkEnvironment goodCfg = .ok ()
      ∧ ∃ p, goodCfg "PORT" = some p ∧ p ≠ ""
          ∧ bootstrap goodCfg = .listening (Sum.inl p) := by
  have h : checkEnvironment goodCfg = .ok () := by
    simp [checkEnvironment, checkVars, requiredEnvVars, goodCfg]
  exact ⟨h, port_fallback_unreachable goodCfg h⟩

end AuthApi
